import Mathlib

/-!
Shallow embedding of the agentbook job-marketplace core:
the match scorer and ranking engine (`app/services/matching.py` and
`app/agents/matcher.py`), the escrow ledger (`app/services/escrow.py`),
and the job-lifecycle API operations (`app/api/jobs.py`,
`app/api/agents.py`).  Python floats are modelled as exact rationals,
SQLAlchemy rows as structures, and each endpoint as a pure function on
the records it touches, returning `Except` for the error paths.
-/

namespace Agentbook

/-- `TrustLevel` enum from `app/models.py`. -/
inductive TrustLevel where
  | NEW | VERIFIED | TRUSTED | ELITE
deriving DecidableEq, Repr

/-- Position of a trust level in `TRUST_LEVEL_ORDER = [NEW, VERIFIED, TRUSTED, ELITE]`. -/
def trustRank : TrustLevel → Nat
  | .NEW => 0
  | .VERIFIED => 1
  | .TRUSTED => 2
  | .ELITE => 3

/-- `JobStatus` enum from `app/models.py`. -/
inductive JobStatus where
  | DRAFT | OPEN | IN_PROGRESS | PENDING_REVIEW | COMPLETED | CANCELLED | DISPUTED
deriving DecidableEq, Repr

/-- `ApplicationStatus` enum from `app/models.py`. -/
inductive ApplicationStatus where
  | PENDING | ACCEPTED | REJECTED | WITHDRAWN
deriving DecidableEq, Repr

/-- `PaymentStatus` enum from `app/models.py`. -/
inductive PaymentStatus where
  | PENDING | ESCROWED | RELEASED | REFUNDED | DISPUTED
deriving DecidableEq, Repr

/-- `AgentStatus` enum from `app/models.py`. -/
inductive AgentStatus where
  | ONLINE | OFFLINE | BUSY
deriving DecidableEq, Repr

/-- The fields of an `AgentNode` row read or written by the scorer,
the escrow service and the review endpoint.  `accuracy_scores` models the
Python dict together with its `.get(category, 0)` default. -/
structure AgentNode where
  id : Nat
  status : AgentStatus := .ONLINE
  tools : List String := []
  context_window : Nat := 0
  accuracy_scores : String → ℚ := fun _ => 0
  specializations : List String := []
  rating : ℚ := 0
  jobs_completed : Nat := 0
  hourly_rate : ℚ := 0
  trust_level : TrustLevel := .NEW
  total_earned : ℚ := 0
  pending_payout : ℚ := 0

/-- The fields of a `Company` row touched by the escrow service and
the jobs API. -/
structure Company where
  id : Nat
  balance : ℚ := 0
  total_spent : ℚ := 0
  jobs_completed : Nat := 0
deriving DecidableEq

/-- The fields of a `Job` row touched by the scorer, the escrow service
and the jobs API.  A missing category / trust requirement is the empty
string / `none`, matching Python falsiness of `None`. -/
structure Job where
  id : Nat
  company_id : Nat
  category : String := ""
  required_tools : List String := []
  min_context : Nat := 0
  min_accuracy : ℚ := 0
  min_trust_level : Option TrustLevel := none
  budget : ℚ := 0
  status : JobStatus := .DRAFT
  escrow_amount : ℚ := 0
  payment_status : PaymentStatus := .PENDING
  hired_agent_id : Option Nat := none
deriving DecidableEq

/-- An `Application` row. -/
structure Application where
  id : Nat
  agent_id : Nat
  job_id : Nat
  bid_amount : ℚ := 0
  match_score : ℚ := 0
  status : ApplicationStatus := .PENDING
deriving DecidableEq

/-- A `Review` row. -/
structure Review where
  agent_id : Nat
  job_id : Nat
  quality_score : ℚ
  timeliness_score : ℚ
  communication_score : ℚ
  overall_score : ℚ
deriving DecidableEq

/-- `MatchBreakdown` dataclass from `app/services/matching.py`
(all components default to `0.0`). -/
structure MatchBreakdown where
  tools_score : ℚ := 0
  context_score : ℚ := 0
  accuracy_score : ℚ := 0
  reputation_score : ℚ := 0
  price_score : ℚ := 0
  specialization_score : ℚ := 0
  total : ℚ := 0
deriving DecidableEq, Repr

/-- The all-zero breakdown `MatchBreakdown()` returned on disqualification. -/
def MatchBreakdown.zero : MatchBreakdown := {}

/-- The category → estimated-hours lookup table used inline by the price
component of `calculate_match_score` in `app/services/matching.py`
(`{"support": 4, "research": 8, "content": 6, "code": 10, "data": 5,
"analysis": 8}.get(job.category, 6)`). -/
def categoryBaseHours (category : String) : ℚ :=
  if category = "support" then 4
  else if category = "research" then 8
  else if category = "content" then 6
  else if category = "code" then 10
  else if category = "data" then 5
  else if category = "analysis" then 8
  else 6

/-- The trust-level disqualifier of `calculate_match_score`:
`TRUST_LEVEL_ORDER.index(agent.trust_level) <
TRUST_LEVEL_ORDER.index(required_level)`, guarded by
`if job.min_trust_level:`. -/
def trustDisqualified (agent : AgentNode) (job : Job) : Bool :=
  match job.min_trust_level with
  | some required_level => trustRank agent.trust_level < trustRank required_level
  | none => false

/-- Soft tools component: `min(0.1 + extra_tools * 0.02, 0.15)` when the
agent has any tools, where `extra_tools = len(agent_tools - required_tools)`
on the deduplicated sets. -/
def tools_score (agent : AgentNode) (job : Job) : ℚ :=
  if agent.tools.dedup ≠ [] then
    min (0.1 + ((agent.tools.dedup.filter
      (fun t => t ∉ job.required_tools.dedup)).length : ℚ) * 0.02) 0.15
  else 0

/-- Soft context component: `min((ratio - 1) * 0.1, 0.1)` above the
requirement, else the flat base `0.05`. -/
def context_score (agent : AgentNode) (job : Job) : ℚ :=
  if job.min_context ≠ 0 ∧ job.min_context < agent.context_window then
    min (((agent.context_window : ℚ) / (job.min_context : ℚ) - 1) * 0.1) 0.1
  else 0.05

/-- Soft accuracy component: full credit `accuracy * 0.25` at or above
`min_accuracy`, partial credit `(accuracy/min_accuracy) * 0.15` below it. -/
def accuracy_score (agent : AgentNode) (job : Job) : ℚ :=
  if job.min_accuracy ≠ 0 ∧ job.category ≠ "" then
    let agent_accuracy := agent.accuracy_scores job.category
    if agent_accuracy ≥ job.min_accuracy then agent_accuracy * 0.25
    else if agent_accuracy > 0 then (agent_accuracy / job.min_accuracy) * 0.15
    else 0
  else 0

/-- Soft reputation component: `(rating/5) * 0.25` plus a completed-jobs
bonus of 0.05 (≥ 100 jobs) or 0.03 (≥ 25 jobs). -/
def reputation_score (agent : AgentNode) : ℚ :=
  if agent.rating > 0 then
    (agent.rating / 5) * 0.25 +
      (if agent.jobs_completed ≥ 100 then 0.05
       else if agent.jobs_completed ≥ 25 then 0.03
       else 0)
  else 0

/-- Soft price component of the agent-jobs-live scorer: hours from the
category table (no budget scaling), `estimated_cost = hourly_rate * hours`,
contributing `(1 - estimated_cost/budget) * 0.15` when affordable. -/
def price_score (agent : AgentNode) (job : Job) : ℚ :=
  if job.budget ≠ 0 ∧ agent.hourly_rate ≠ 0 then
    let estimated_cost := agent.hourly_rate * categoryBaseHours job.category
    if estimated_cost ≤ job.budget then (1 - estimated_cost / job.budget) * 0.15
    else 0
  else 0

/-- Soft specialization component: flat 0.15 when the job's category is
among the agent's specializations. -/
def specialization_score (agent : AgentNode) (job : Job) : ℚ :=
  if job.category ≠ "" ∧ job.category ∈ agent.specializations then 0.15 else 0

/-- The soft-scoring block of `calculate_match_score`: the six
components and their raw (unclamped) sum. -/
def soft_breakdown (agent : AgentNode) (job : Job) : MatchBreakdown :=
  { tools_score := tools_score agent job
    context_score := context_score agent job
    accuracy_score := accuracy_score agent job
    reputation_score := reputation_score agent
    price_score := price_score agent job
    specialization_score := specialization_score agent job
    total := tools_score agent job + context_score agent job + accuracy_score agent job +
      reputation_score agent + price_score agent job + specialization_score agent job }

/-- `calculate_match_score(agent, job)` from
`app/services/matching.py` (the agent-jobs-live scorer).  Set values
are modelled by deduplicated lists; Python truthiness of numbers,
strings and lists is `≠ 0` / `≠ ""` / `≠ []`.  The three early returns
are the hard disqualifiers; the final result clamps the summed soft
components to 1. -/
def calculate_match_score (agent : AgentNode) (job : Job) : ℚ × MatchBreakdown :=
  if job.required_tools.dedup ≠ [] ∧
      ¬ (∀ t ∈ job.required_tools.dedup, t ∈ agent.tools.dedup) then
    (0, MatchBreakdown.zero)
  else if job.min_context ≠ 0 ∧ agent.context_window < job.min_context then
    (0, MatchBreakdown.zero)
  else if trustDisqualified agent job then
    (0, MatchBreakdown.zero)
  else
    (min (soft_breakdown agent job).total 1, soft_breakdown agent job)

/-- The three hard disqualifiers of §4.2, exactly as tested in sequence by
`calculate_match_score`. -/
def disqualified (agent : AgentNode) (job : Job) : Prop :=
  (job.required_tools.dedup ≠ [] ∧ ¬ (∀ t ∈ job.required_tools.dedup, t ∈ agent.tools.dedup))
  ∨ (job.min_context ≠ 0 ∧ agent.context_window < job.min_context)
  ∨ trustDisqualified agent job = true

instance (agent : AgentNode) (job : Job) : Decidable (disqualified agent job) := by
  unfold disqualified
  infer_instance

/-- `rank_agents_for_job(agents, job)` from `app/services/matching.py`:
skips offline agents, keeps score > 0, then Python's stable
`results.sort(key=lambda x: x[1], reverse=True)`. -/
def rank_agents_for_job (agents : List AgentNode) (job : Job) :
    List (AgentNode × ℚ × MatchBreakdown) :=
  let results := agents.filterMap (fun agent =>
    if agent.status = .OFFLINE then none
    else
      let sb := calculate_match_score agent job
      if sb.1 > 0 then some (agent, sb.1, sb.2) else none)
  results.mergeSort (fun x y => y.2.1 ≤ x.2.1)

/-- `estimate_job_hours(job)` from `app/agents/matcher.py`: the category
table scaled by budget (×1.5 above 100, ×1.2 above 50).  Used by
`rank_jobs_for_agent`, not by either scorer's price component. -/
def estimate_job_hours (job : Job) : ℚ :=
  let base_hours := categoryBaseHours job.category
  if job.budget > 100 then base_hours * 1.5
  else if job.budget > 50 then base_hours * 1.2
  else base_hours

/-- Modelled from the spec (claim about the price component): estimated
hours via `estimate_job_hours` (category table with budget scaling),
`estimated_cost = hourly_rate × hours`, contributing
`(1 − estimated_cost/budget) × 0.15` when affordable, else 0. -/
def price_score_claimed (agent : AgentNode) (job : Job) : ℚ :=
  let estimated_cost := agent.hourly_rate * estimate_job_hours job
  if estimated_cost ≤ job.budget then (1 - estimated_cost / job.budget) * 0.15 else 0

/-- An immutable `PaymentTransaction` ledger row. -/
structure PaymentTransaction where
  job_id : Nat
  from_company_id : Nat
  to_agent_id : Option Nat := none
  gross_amount : ℚ
  platform_fee : ℚ
  net_amount : ℚ
  transaction_type : String
deriving DecidableEq

/-- The error kinds raised (as `ValueError`s) by `EscrowService` in
`app/services/escrow.py`, named after the spec's §7 taxonomy. -/
inductive EscrowError where
  | InsufficientFunds
  | InvalidEscrowState
  | NoFundsInEscrow
  | CompanyNotFound
  | InsufficientPayout
deriving DecidableEq, Repr

/-- `EscrowService.deposit_to_escrow(job, company)`: debit the company,
mark the budget escrowed, record an `escrow` transaction. -/
def deposit_to_escrow (job : Job) (company : Company) :
    Except EscrowError (Job × Company × PaymentTransaction) :=
  if company.balance < job.budget then .error .InsufficientFunds
  else
    .ok ({ job with escrow_amount := job.budget, payment_status := .ESCROWED },
         { company with balance := company.balance - job.budget },
         { job_id := job.id
           from_company_id := company.id
           gross_amount := job.budget
           platform_fee := 0
           net_amount := job.budget
           transaction_type := "escrow" })

/-- `EscrowService.release_to_agent(job, agent)`: release escrow to the
agent minus the platform fee (`settings.platform_fee_percent`, passed
here as `pct`).  The company is looked up by `job.company_id` and its
`total_spent` is updated only when found (`if company:`), so it is an
`Option` here. -/
def release_to_agent (pct : ℚ) (job : Job) (agent : AgentNode)
    (company : Option Company) :
    Except EscrowError (Job × AgentNode × Option Company × PaymentTransaction) :=
  if job.payment_status ≠ PaymentStatus.ESCROWED then .error .InvalidEscrowState
  else if job.escrow_amount ≤ 0 then .error .NoFundsInEscrow
  else
    let gross := job.escrow_amount
    let fee := gross * (pct / 100)
    let net := gross - fee
    .ok ({ job with escrow_amount := 0, payment_status := .RELEASED },
         { agent with total_earned := agent.total_earned + net,
                      pending_payout := agent.pending_payout + net },
         company.map (fun c => { c with total_spent := c.total_spent + gross }),
         { job_id := job.id
           from_company_id := job.company_id
           to_agent_id := some agent.id
           gross_amount := gross
           platform_fee := fee
           net_amount := net
           transaction_type := "release" })

/-- `EscrowService.refund_to_company(job)`: return the escrow to the
company, looked up by `job.company_id` (an error when missing). -/
def refund_to_company (job : Job) (company : Option Company) :
    Except EscrowError (Job × Company × PaymentTransaction) :=
  if job.payment_status ≠ PaymentStatus.ESCROWED then .error .InvalidEscrowState
  else
    match company with
    | none => .error .CompanyNotFound
    | some c =>
      let amount := job.escrow_amount
      .ok ({ job with escrow_amount := 0, payment_status := .REFUNDED },
           { c with balance := c.balance + amount },
           { job_id := job.id
             from_company_id := job.company_id
             gross_amount := amount
             platform_fee := 0
             net_amount := amount
             transaction_type := "refund" })

/-- `EscrowService.process_payout(agent, amount)`: pay out from the
agent's pending balance, failing when more is requested than is
available. -/
def process_payout (agent : AgentNode) (amount : ℚ) :
    Except EscrowError AgentNode :=
  if amount > agent.pending_payout then .error .InsufficientPayout
  else .ok { agent with pending_payout := agent.pending_payout - amount }

/-- Error kinds surfaced by the HTTP endpoints in `app/api/jobs.py` and
`app/api/agents.py` (404s and 400s), named after the spec's §7
taxonomy.  `EscrowFailure` wraps a `ValueError` escaping the escrow
service. -/
inductive ApiError where
  | NotFound
  | InvalidTransition
  | Disqualified
  | DuplicateApplication
  | EscrowFailure (e : EscrowError)
deriving DecidableEq, Repr

/-- `hire_agent(job_id, application_id)` from `app/api/jobs.py`:
owner-only, requires the job OPEN and the application to belong to the
job; accepts the chosen application, rejects the job's other
applications, sets the job IN_PROGRESS with `hired_agent_id`. -/
def hire_agent (company : Company) (job : Job)
    (applications : List Application) (application_id : Nat) :
    Except ApiError (Job × List Application) :=
  if job.company_id ≠ company.id then .error .NotFound
  else if job.status ≠ JobStatus.OPEN then .error .InvalidTransition
  else
    match applications.find? (fun a => a.id = application_id) with
    | none => .error .NotFound
    | some application =>
      if application.job_id ≠ job.id then .error .NotFound
      else
        let applications1 := applications.map (fun a =>
          if a.id = application_id then { a with status := .ACCEPTED }
          else if a.job_id = job.id then { a with status := .REJECTED }
          else a)
        .ok ({ job with status := .IN_PROGRESS,
                        hired_agent_id := some application.agent_id },
             applications1)

/-- `apply_to_job(job_id, data)` from `app/api/agents.py`: requires the
job OPEN, no existing application by this agent for this job (any
status), and a nonzero match score; appends a PENDING application. -/
def apply_to_job (agent : AgentNode) (job : Job)
    (applications : List Application) (bid_amount : ℚ) (new_id : Nat) :
    Except ApiError (Job × List Application × Application) :=
  if job.status ≠ JobStatus.OPEN then .error .InvalidTransition
  else if (applications.find? (fun a =>
      a.agent_id = agent.id ∧ a.job_id = job.id)).isSome then
    .error .DuplicateApplication
  else
    let match_score := (calculate_match_score agent job).1
    if match_score = 0 then .error .Disqualified
    else
      let application : Application :=
        { id := new_id
          agent_id := agent.id
          job_id := job.id
          bid_amount := bid_amount
          match_score := match_score
          status := .PENDING }
      .ok (job, applications ++ [application], application)

/-- The review payload `DeliverableReview` from `app/schemas.py`. -/
structure DeliverableReview where
  approved : Bool
  quality_score : ℚ
  timeliness_score : ℚ
  communication_score : ℚ

/-- `review_deliverable(job_id, review_data)` from `app/api/jobs.py`:
on approval, completes the job, releases escrow (fee percent `pct`),
bumps completion counters, appends the review, recomputes the agent's
rating and re-evaluates the trust tier.  The session is created with
`autoflush=False` (`app/db.py`), so the rating query cannot see the
just-added pending review: the recomputed rating is the mean
`overall_score` over the agent's PRIOR reviews only, and when the agent
has no prior reviews (`if reviews:`) the rating is left unchanged.  On
rejection, the job goes back to IN_PROGRESS. -/
def review_deliverable (pct : ℚ) (company : Company) (job : Job)
    (agent : AgentNode) (reviews : List Review) (review_data : DeliverableReview) :
    Except ApiError (Company × Job × AgentNode × List Review) :=
  if job.company_id ≠ company.id then .error .NotFound
  else if job.status ≠ JobStatus.PENDING_REVIEW then .error .InvalidTransition
  else if job.hired_agent_id ≠ some agent.id then .error .NotFound
  else if review_data.approved then
    let job1 := { job with status := .COMPLETED }
    match release_to_agent pct job1 agent (some company) with
    | .error e => .error (.EscrowFailure e)
    | .ok (job2, agent1, company1, _transaction) =>
      let company2 :=
        match company1 with
        | some c => { c with jobs_completed := c.jobs_completed + 1 }
        | none => company
      let agent2 := { agent1 with jobs_completed := agent1.jobs_completed + 1 }
      let overall := (review_data.quality_score + review_data.timeliness_score +
        review_data.communication_score) / 3
      let review : Review :=
        { agent_id := agent.id
          job_id := job.id
          quality_score := review_data.quality_score
          timeliness_score := review_data.timeliness_score
          communication_score := review_data.communication_score
          overall_score := overall }
      let reviews1 := reviews ++ [review]
      let agent_reviews := reviews.filter (fun r => r.agent_id = agent.id)
      let agent3 : AgentNode :=
        if agent_reviews.isEmpty then agent2
        else
          { agent2 with rating :=
              (agent_reviews.map (fun r => r.overall_score)).sum / (agent_reviews.length : ℚ) }
      let agent4 : AgentNode :=
        if agent3.jobs_completed ≥ 50 ∧ agent3.rating ≥ 4.5 then
          { agent3 with trust_level := .ELITE }
        else if agent3.jobs_completed ≥ 20 ∧ agent3.rating ≥ 4 then
          { agent3 with trust_level := .TRUSTED }
        else if agent3.jobs_completed ≥ 5 ∧ agent3.rating ≥ 3.5 then
          { agent3 with trust_level := .VERIFIED }
        else agent3
      .ok (company2, job2, agent4, reviews1)
  else
    .ok (company, { job with status := .IN_PROGRESS }, agent, reviews)

/-- The `Review` row created by an approving `review_deliverable` call:
`overall_score` is the mean of the three submitted sub-scores. -/
def mkReview (agent : AgentNode) (job : Job) (review_data : DeliverableReview) : Review :=
  { agent_id := agent.id
    job_id := job.id
    quality_score := review_data.quality_score
    timeliness_score := review_data.timeliness_score
    communication_score := review_data.communication_score
    overall_score := (review_data.quality_score + review_data.timeliness_score +
      review_data.communication_score) / 3 }

/-- The §4.4 composition exercised by the spec's escrow round-trip
property: `deposit_to_escrow` immediately followed by
`release_to_agent` on the resulting job and company. -/
def deposit_then_release (pct : ℚ) (job : Job) (company : Company) (agent : AgentNode) :
    Except EscrowError (Job × AgentNode × Option Company × PaymentTransaction) :=
  match deposit_to_escrow job company with
  | .error e => .error e
  | .ok (job1, company1, _t1) => release_to_agent pct job1 agent (some company1)

/-- The hired agent's trust level after `review_deliverable`, `none`
when the call failed. -/
def trustAfterReview (pct : ℚ) (company : Company) (job : Job) (agent : AgentNode)
    (reviews : List Review) (review_data : DeliverableReview) : Option TrustLevel :=
  match review_deliverable pct company job agent reviews review_data with
  | .ok (_, _, a, _) => some a.trust_level
  | .error _ => none

/-- The hired agent's recomputed rating after `review_deliverable`,
`none` when the call failed. -/
def ratingAfterReview (pct : ℚ) (company : Company) (job : Job) (agent : AgentNode)
    (reviews : List Review) (review_data : DeliverableReview) : Option ℚ :=
  match review_deliverable pct company job agent reviews review_data with
  | .ok (_, _, a, _) => some a.rating
  | .error _ => none

/-!  Concrete records used to instantiate the theorems below (witnesses
and counterexamples).  They correspond to the scenario rows of the
spec's §8 where one exists. -/

/-- §8 scenario agent: `tools={"email","crm"}`, 32k context, NEW trust. -/
def agentEmailCrm : AgentNode :=
  { id := 1, tools := ["email", "crm"], context_window := 32000, hourly_rate := 10 }

/-- §8 scenario job: requires `email`, 16k context, budget 50, support. -/
def jobSupport50 : Job :=
  { id := 1, company_id := 1, category := "support", required_tools := ["email"],
    min_context := 16000, min_trust_level := some .NEW, budget := 50, status := .OPEN }

/-- A support job with budget 150 (same shape, above the ×1.5 scaling
threshold of `estimate_job_hours`). -/
def jobSupport150 : Job :=
  { id := 2, company_id := 1, category := "support", budget := 150, status := .OPEN }

/-- An agent lacking the required tool `email`. -/
def agentNoTools : AgentNode := { id := 2 }

/-- A company with balance 100. -/
def companyRich : Company := { id := 1, balance := 100 }

/-- A publishable job with budget 100 owned by company 1. -/
def jobBudget100 : Job :=
  { id := 3, company_id := 1, budget := 100, status := .OPEN }

/-- An application from agent 3 on job 3 that was withdrawn. -/
def applicationWithdrawn : Application :=
  { id := 7, agent_id := 3, job_id := 3, status := .WITHDRAWN }

/-- An agent with 100 pending payout. -/
def agentPaid : AgentNode := { id := 4, pending_payout := 100 }

/-- An ELITE agent with 59 completed jobs about to be reviewed. -/
def agentElite : AgentNode :=
  { id := 5, trust_level := .ELITE, jobs_completed := 59, rating := 4.4 }

/-- A job in PENDING_REVIEW with escrowed budget 100 hired to agent 5. -/
def jobPendingReview : Job :=
  { id := 6, company_id := 1, budget := 100, status := .PENDING_REVIEW,
    escrow_amount := 100, payment_status := .ESCROWED, hired_agent_id := some 5 }

/-- A previous review of agent 5 with overall score 4.4. -/
def reviewPrior : Review :=
  { agent_id := 5, job_id := 2, quality_score := 4.4, timeliness_score := 4.4,
    communication_score := 4.4, overall_score := 4.4 }

/-- An approving review with all three sub-scores 4. -/
def reviewApprove4 : DeliverableReview :=
  { approved := true, quality_score := 4, timeliness_score := 4, communication_score := 4 }

/-- The application created when the §8 scenario agent applies to the
§8 scenario job with bid 20 (match score `1/4`). -/
def applicationScenario : Application :=
  { id := 1, agent_id := 1, job_id := 1, bid_amount := 20, match_score := 1/4,
    status := .PENDING }

/-- Two equally-scoring online agents whose ids are listed in
descending order, exposing the tie-break behaviour of
`rank_agents_for_job`. -/
def agentTie5 : AgentNode := { id := 5, tools := ["email"] }

def agentTie2 : AgentNode := { id := 2, tools := ["email"] }

/-- A job with no requirements (every agent scores the base
`context_score = 0.05` plus `tools_score = 0.1`). -/
def jobNoReqs : Job := { id := 8, company_id := 1, status := .OPEN }

/-- Modelled from the spec's words for the C7 ranking claim: filter to
score > 0, then sort descending by score with ties broken by agent id
ascending. -/
def rank_agents_for_job_claimed (agents : List AgentNode) (job : Job) :
    List (AgentNode × ℚ × MatchBreakdown) :=
  let results := agents.filterMap (fun agent =>
    let sb := calculate_match_score agent job
    if sb.1 > 0 then some (agent, sb.1, sb.2) else none)
  results.mergeSort (fun x y => x.2.1 > y.2.1 ∨ (x.2.1 = y.2.1 ∧ x.1.id ≤ y.1.id))

/-!  ## Theorems -/

/-- C2: whenever any hard disqualifier holds (missing required tool,
insufficient context window, or trust level ranking below the job's
minimum), `calculate_match_score` returns score 0 with the all-zero
breakdown — no soft component is computed. -/
theorem disqualified_zero_score (agent : AgentNode) (job : Job)
    (h : disqualified agent job) :
    calculate_match_score agent job = (0, MatchBreakdown.zero) := by
  unfold calculate_match_score
  split_ifs with h1 h2 h3
  · rfl
  · rfl
  · rfl
  · rcases h with h | h | h
    · exact absurd h h1
    · exact absurd h h2
    · exact absurd h h3

/-- An agent with no tools is disqualified from the §8 scenario job and
scores exactly `(0, all-zero breakdown)`. -/
theorem disqualified_zero_score_witness :
    disqualified agentNoTools jobSupport50 ∧
      calculate_match_score agentNoTools jobSupport50 = (0, MatchBreakdown.zero) :=
  ⟨by decide, disqualified_zero_score agentNoTools jobSupport50 (by decide)⟩

/-- C9: `process_payout` fails with an error when more than the pending
payout is requested (the agent record is untouched), and otherwise
deducts exactly the amount from `pending_payout` while leaving
`total_earned` (and every other field) unchanged. -/
theorem process_payout_spec (agent : AgentNode) (amount : ℚ) :
    (agent.pending_payout < amount →
      process_payout agent amount = .error .InsufficientPayout) ∧
    (amount ≤ agent.pending_payout →
      process_payout agent amount =
        .ok { agent with pending_payout := agent.pending_payout - amount }) := by
  constructor
  · intro h
    unfold process_payout
    rw [if_pos h]
  · intro h
    unfold process_payout
    rw [if_neg (not_lt.mpr h)]

/-- Paying 30 out of 100 pending succeeds leaving 70; requesting 200
fails. -/
theorem process_payout_witness :
    process_payout agentPaid 30 = .ok { agentPaid with pending_payout := 70 } ∧
      process_payout agentPaid 200 = .error .InsufficientPayout := by
  constructor
  · have h := (process_payout_spec agentPaid 30).2 (by norm_num [agentPaid])
    simpa [agentPaid, show (100:ℚ) - 30 = 70 from by norm_num] using h
  · exact (process_payout_spec agentPaid 200).1 (by norm_num [agentPaid])

theorem tools_score_nonneg (agent : AgentNode) (job : Job) : 0 ≤ tools_score agent job := by
  unfold tools_score
  split_ifs with h
  · refine le_min (by positivity) (by norm_num)
  · exact le_refl 0

theorem context_score_nonneg (agent : AgentNode) (job : Job) : 0 ≤ context_score agent job := by
  unfold context_score
  split_ifs with h
  · refine le_min ?_ (by norm_num)
    have hm : (0 : ℚ) < (job.min_context : ℚ) := by
      exact_mod_cast Nat.pos_of_ne_zero h.1
    have hr : (1 : ℚ) ≤ (agent.context_window : ℚ) / (job.min_context : ℚ) := by
      rw [le_div_iff₀ hm]
      have : (job.min_context : ℚ) ≤ (agent.context_window : ℚ) := by
        exact_mod_cast Nat.le_of_lt h.2
      linarith
    have h1 : (0 : ℚ) ≤ (agent.context_window : ℚ) / (job.min_context : ℚ) - 1 := by linarith
    positivity
  · norm_num

theorem accuracy_score_nonneg (agent : AgentNode) (job : Job)
    (hacc : 0 ≤ agent.accuracy_scores job.category) (hmin : 0 ≤ job.min_accuracy) :
    0 ≤ accuracy_score agent job := by
  unfold accuracy_score
  split_ifs with hA
  · dsimp only
    split_ifs with hB hC
    · positivity
    · have hmpos : 0 < job.min_accuracy := lt_of_le_of_ne hmin (Ne.symm hA.1)
      exact mul_nonneg (div_nonneg hC.le hmpos.le) (by norm_num)
    · exact le_refl 0
  · exact le_refl 0

theorem reputation_score_nonneg (agent : AgentNode) : 0 ≤ reputation_score agent := by
  unfold reputation_score
  split_ifs with h h1 h2 <;>
    try {
      have hr : (0:ℚ) ≤ agent.rating / 5 * 0.25 := by positivity
      linarith }
  exact le_refl 0

theorem price_score_nonneg (agent : AgentNode) (job : Job) (hbud : 0 ≤ job.budget) :
    0 ≤ price_score agent job := by
  unfold price_score
  split_ifs with h
  · dsimp only
    split_ifs with h1
    · have hbpos : 0 < job.budget := lt_of_le_of_ne hbud (Ne.symm h.1)
      have h2 : agent.hourly_rate * categoryBaseHours job.category / job.budget ≤ 1 :=
        (div_le_one hbpos).mpr h1
      have h3 : (0:ℚ) ≤ 1 - agent.hourly_rate * categoryBaseHours job.category / job.budget := by
        linarith
      positivity
    · exact le_refl 0
  · exact le_refl 0

theorem specialization_score_nonneg (agent : AgentNode) (job : Job) :
    0 ≤ specialization_score agent job := by
  unfold specialization_score
  split_ifs <;> norm_num

theorem match_score_nonneg (agent : AgentNode) (job : Job)
    (hacc : 0 ≤ agent.accuracy_scores job.category) (hmin : 0 ≤ job.min_accuracy)
    (hbud : 0 ≤ job.budget) :
    0 ≤ (calculate_match_score agent job).1 := by
  unfold calculate_match_score
  split_ifs
  · exact le_refl 0
  · exact le_refl 0
  · exact le_refl 0
  · refine le_min ?_ (by norm_num)
    have h1 := tools_score_nonneg agent job
    have h2 := context_score_nonneg agent job
    have h3 := accuracy_score_nonneg agent job hacc hmin
    have h4 := reputation_score_nonneg agent
    have h5 := price_score_nonneg agent job hbud
    have h6 := specialization_score_nonneg agent job
    unfold soft_breakdown
    dsimp only
    linarith

theorem match_score_le_one (agent : AgentNode) (job : Job) :
    (calculate_match_score agent job).1 ≤ 1 := by
  unfold calculate_match_score
  split_ifs
  · norm_num
  · norm_num
  · norm_num
  · exact min_le_right _ _

/-- C6: the total match score is always in `[0,1]` — each soft component
is nonnegative (given the data-model ranges: accuracy scores,
`min_accuracy` and budget nonnegative), the components are summed, and
the total is clamped to 1. -/
theorem match_score_in_unit_interval (agent : AgentNode) (job : Job)
    (hacc : ∀ c, 0 ≤ agent.accuracy_scores c) (hmin : 0 ≤ job.min_accuracy)
    (hbud : 0 ≤ job.budget) :
    0 ≤ (calculate_match_score agent job).1 ∧ (calculate_match_score agent job).1 ≤ 1 :=
  ⟨match_score_nonneg agent job (hacc job.category) hmin hbud,
   match_score_le_one agent job⟩

/-- The §8 scenario agent/job score lies in `[0,1]`. -/
theorem match_score_in_unit_interval_witness :
    (0 ≤ (calculate_match_score agentEmailCrm jobSupport50).1 ∧
      (calculate_match_score agentEmailCrm jobSupport50).1 ≤ 1) :=
  match_score_in_unit_interval agentEmailCrm jobSupport50
    (fun c => by simp [agentEmailCrm]) (by norm_num [jobSupport50]) (by norm_num [jobSupport50])

theorem hire_agent_ok_inv {company : Company} {job : Job} {apps : List Application}
    {appid : Nat} {job1 : Job} {apps1 : List Application}
    (h : hire_agent company job apps appid = .ok (job1, apps1)) :
    job.company_id = company.id ∧ job.status = .OPEN ∧
    ∃ application, apps.find? (fun a => a.id = appid) = some application ∧
      application.job_id = job.id ∧
      job1 = { job with status := .IN_PROGRESS,
                        hired_agent_id := some application.agent_id } ∧
      apps1 = apps.map (fun a =>
        if a.id = appid then { a with status := .ACCEPTED }
        else if a.job_id = job.id then { a with status := .REJECTED }
        else a) := by
  unfold hire_agent at h
  split_ifs at h with h1 h2
  push_neg at h1 h2
  cases hfind : apps.find? (fun a => a.id = appid) with
  | none =>
    rw [hfind] at h
    exact Except.noConfusion h
  | some application =>
    rw [hfind] at h
    dsimp only at h
    split_ifs at h with h3
    · push_neg at h3
      rw [Except.ok.injEq, Prod.mk.injEq] at h
      exact ⟨h1, h2, application, rfl, h3, h.1.symm, h.2.symm⟩

/-- C3: once a hire call has succeeded (the job moved OPEN →
IN_PROGRESS), any later hire call on the resulting job — whatever
applications exist then — fails with the explicit `InvalidTransition`
error; no state is returned by the failed call, so `hired_agent_id`
remains what the first call set. -/
theorem hire_twice_invalid_transition (company : Company) (job : Job)
    (apps : List Application) (appid : Nat) (job1 : Job) (apps1 : List Application)
    (h : hire_agent company job apps appid = .ok (job1, apps1))
    (apps2 : List Application) (appid2 : Nat) :
    hire_agent company job1 apps2 appid2 = .error .InvalidTransition := by
  obtain ⟨hown, -, application, -, -, hj1, -⟩ := hire_agent_ok_inv h
  have hcid : job1.company_id = company.id := by rw [hj1]; exact hown
  have hst : job1.status = .IN_PROGRESS := by rw [hj1]
  unfold hire_agent
  rw [if_neg (by simp [hcid]), if_pos (by simp [hst])]

/-- A second hire on the concretely-hired job fails with
`InvalidTransition`. -/
theorem hire_twice_witness :
    hire_agent companyRich
      { jobBudget100 with status := .IN_PROGRESS, hired_agent_id := some 3 } [] 7 =
      .error .InvalidTransition :=
  hire_twice_invalid_transition companyRich jobBudget100 [applicationWithdrawn] 7
    { jobBudget100 with status := .IN_PROGRESS, hired_agent_id := some 3 }
    [{ applicationWithdrawn with status := .ACCEPTED }] (by rfl) [] 7

/-- C4 counterexample: `hire_agent` accepts an application whose status
is WITHDRAWN — it never checks `application.status == PENDING` — so the
claim's PENDING requirement fails on this input. -/
theorem hire_withdrawn_accepted :
    applicationWithdrawn.status = .WITHDRAWN ∧
    hire_agent companyRich jobBudget100 [applicationWithdrawn] 7 =
      .ok ({ jobBudget100 with status := .IN_PROGRESS, hired_agent_id := some 3 },
           [{ applicationWithdrawn with status := .ACCEPTED }]) := ⟨by decide, by rfl⟩

/-- C4 (amended): a successful hire requires the caller to own the job,
the job to be OPEN and the application (found by id, any status) to
belong to the job; it sets the job IN_PROGRESS, records the hired
agent, accepts the chosen application and rejects the job's other
applications. -/
theorem hire_agent_spec (company : Company) (job : Job) (apps : List Application)
    (appid : Nat) (job1 : Job) (apps1 : List Application)
    (h : hire_agent company job apps appid = .ok (job1, apps1)) :
    job.company_id = company.id ∧ job.status = .OPEN ∧ job1.status = .IN_PROGRESS ∧
    ∃ application, apps.find? (fun a => a.id = appid) = some application ∧
      application.job_id = job.id ∧
      job1.hired_agent_id = some application.agent_id ∧
      apps1 = apps.map (fun a =>
        if a.id = appid then { a with status := .ACCEPTED }
        else if a.job_id = job.id then { a with status := .REJECTED }
        else a) := by
  obtain ⟨h1, h2, application, hfind, hjid, hj1, ha⟩ := hire_agent_ok_inv h
  exact ⟨h1, h2, by rw [hj1], application, hfind, hjid, by rw [hj1], ha⟩

/-- The concrete hire of `applicationWithdrawn` went OPEN →
IN_PROGRESS. -/
theorem hire_agent_spec_witness :
    jobBudget100.status = .OPEN ∧
      ({ jobBudget100 with status := .IN_PROGRESS, hired_agent_id := some 3 } : Job).status =
        .IN_PROGRESS := by
  have h := hire_agent_spec companyRich jobBudget100 [applicationWithdrawn] 7
    { jobBudget100 with status := .IN_PROGRESS, hired_agent_id := some 3 }
    [{ applicationWithdrawn with status := .ACCEPTED }] (by rfl)
  exact ⟨h.2.1, h.2.2.1⟩

theorem dedup_email_crm : (["email", "crm"] : List String).dedup = ["email", "crm"] := by
  decide

theorem match_score_scenario :
    (calculate_match_score agentEmailCrm jobSupport50).1 = 1/4 := by
  have e1 : ("crm" : String) ≠ "email" := by decide
  have e2 : (["email", "crm"] : List String) ≠ [] := by decide
  simp only [calculate_match_score, soft_breakdown, tools_score, context_score,
    accuracy_score, reputation_score, price_score, specialization_score,
    categoryBaseHours, trustDisqualified, agentEmailCrm, jobSupport50,
    dedup_email_crm]
  norm_num [min_def, List.filter_cons, List.filter_nil, e1, e2]

theorem apply_to_job_ok_inv {agent : AgentNode} {job : Job} {apps : List Application}
    {bid : ℚ} {nid : Nat} {job' : Job} {apps' : List Application} {app : Application}
    (h : apply_to_job agent job apps bid nid = .ok (job', apps', app)) :
    job' = job ∧ job.status = .OPEN ∧
    (calculate_match_score agent job).1 ≠ 0 ∧
    apps.find? (fun a => a.agent_id = agent.id ∧ a.job_id = job.id) = none ∧
    app = { id := nid, agent_id := agent.id, job_id := job.id, bid_amount := bid,
            match_score := (calculate_match_score agent job).1, status := .PENDING } ∧
    apps' = apps ++ [app] := by
  unfold apply_to_job at h
  split_ifs at h with h1 h2
  dsimp only at h
  split_ifs at h with h3
  push_neg at h1
  rw [Except.ok.injEq, Prod.mk.injEq, Prod.mk.injEq] at h
  obtain ⟨hj, ha, happ⟩ := h
  refine ⟨hj.symm, h1, h3, ?_, ?_, ?_⟩
  · rwa [Option.isSome_iff_ne_none, not_not] at h2
  · rw [← happ]
  · rw [← ha, ← happ]

/-- C5: a successful `apply_to_job` leaves the job unchanged and implies
the job was OPEN, the match score strictly positive (given the
data-model ranges) and that the agent had no application — in particular
no non-withdrawn one — on the job; moreover a second apply by the same
agent then fails with `DuplicateApplication` (no record created). -/
theorem apply_to_job_spec (agent : AgentNode) (job : Job) (apps : List Application)
    (bid : ℚ) (nid : Nat) (job' : Job) (apps' : List Application) (app : Application)
    (hacc : ∀ c, 0 ≤ agent.accuracy_scores c) (hmin : 0 ≤ job.min_accuracy)
    (hbud : 0 ≤ job.budget)
    (h : apply_to_job agent job apps bid nid = .ok (job', apps', app)) :
    job' = job ∧ job.status = .OPEN ∧ 0 < (calculate_match_score agent job).1 ∧
    (∀ a ∈ apps, ¬(a.agent_id = agent.id ∧ a.job_id = job.id ∧ a.status ≠ .WITHDRAWN)) ∧
    (∀ bid2 nid2, apply_to_job agent job' apps' bid2 nid2 =
      .error .DuplicateApplication) := by
  obtain ⟨hj, hopen, hs, hfind, happ, happs⟩ := apply_to_job_ok_inv h
  refine ⟨hj, hopen,
    lt_of_le_of_ne (match_score_nonneg agent job (hacc _) hmin hbud) (Ne.symm hs), ?_, ?_⟩
  · intro a ha hcon
    have hnone := List.find?_eq_none.mp hfind a ha
    simp only [decide_eq_true_eq, Bool.and_eq_true] at hnone
    exact hnone ⟨hcon.1, hcon.2.1⟩
  · intro bid2 nid2
    unfold apply_to_job
    rw [hj, if_neg (by simp [hopen]), if_pos]
    rw [List.find?_isSome]
    refine ⟨app, ?_, ?_⟩
    · rw [happs]
      exact List.mem_append_right apps (List.mem_singleton.mpr rfl)
    · rw [happ]
      simp

theorem apply_scenario_ok :
    apply_to_job agentEmailCrm jobSupport50 [] 20 1 =
      .ok (jobSupport50, [applicationScenario], applicationScenario) := by
  unfold apply_to_job
  rw [if_neg (by simp [jobSupport50])]
  rw [if_neg (by simp)]
  dsimp only
  rw [if_neg (by rw [match_score_scenario]; norm_num)]
  rw [match_score_scenario]
  rfl

/-- The §8 scenario application succeeds from the OPEN job with a
strictly positive score. -/
theorem apply_to_job_spec_witness :
    jobSupport50.status = .OPEN ∧
      0 < (calculate_match_score agentEmailCrm jobSupport50).1 := by
  have h := apply_to_job_spec agentEmailCrm jobSupport50 [] 20 1 jobSupport50
    [applicationScenario] applicationScenario
    (fun c => by simp [agentEmailCrm]) (by norm_num [jobSupport50])
    (by norm_num [jobSupport50]) apply_scenario_ok
  exact ⟨h.2.1, h.2.2.1⟩

theorem mergeSort_pair {α : Type} (a b : α) (le : α → α → Bool) :
    List.mergeSort [a, b] le = if le a b then [a, b] else [b, a] := by
  rw [List.mergeSort]
  simp [List.splitInTwo, List.splitAt, List.splitAt.go, List.merge]

theorem filterMap_guard_eq_map_filter {α β : Type} (p q : α → Prop) [DecidablePred p]
    [DecidablePred q] (f : α → β) :
    ∀ l : List α,
      l.filterMap (fun a => if p a then none else if q a then some (f a) else none) =
      (l.filter (fun a => ¬ p a ∧ q a)).map f
  | [] => rfl
  | a :: l => by
    by_cases h1 : p a
    · simp [h1, filterMap_guard_eq_map_filter p q f l]
    · by_cases h2 : q a
      · simp [h1, h2, filterMap_guard_eq_map_filter p q f l]
      · simp [h1, h2, filterMap_guard_eq_map_filter p q f l]

/-- C7 (amended): `rank_agents_for_job` returns exactly the non-offline
agents with score > 0 (as a permutation of that filtered list, paired
with their scores and breakdowns), sorted descending by score; equal
scores are not reordered by agent id — the sort is stable on input
order. -/
theorem rank_agents_for_job_spec (agents : List AgentNode) (job : Job) :
    List.Perm (rank_agents_for_job agents job)
      ((agents.filter (fun a => a.status ≠ .OFFLINE ∧
        0 < (calculate_match_score a job).1)).map
        (fun a => (a, calculate_match_score a job))) ∧
    (rank_agents_for_job agents job).Pairwise (fun x y => y.2.1 ≤ x.2.1) := by
  constructor
  · have he : (agents.filterMap (fun agent =>
        if agent.status = .OFFLINE then none
        else
          let sb := calculate_match_score agent job
          if sb.1 > 0 then some (agent, sb.1, sb.2) else none)) =
        (agents.filter (fun a => a.status ≠ .OFFLINE ∧
          0 < (calculate_match_score a job).1)).map
          (fun a => (a, calculate_match_score a job)) :=
      filterMap_guard_eq_map_filter _ _ _ agents
    exact (List.mergeSort_perm _ _).trans (List.Perm.of_eq he)
  · unfold rank_agents_for_job
    refine List.Pairwise.imp ?_ (List.sorted_mergeSort ?_ ?_ _)
    · intro a b h
      exact of_decide_eq_true h
    · intro a b c hab hbc
      simp only [decide_eq_true_eq] at *
      exact le_trans hbc hab
    · intro a b
      simp only [Bool.or_eq_true, decide_eq_true_eq]
      exact le_total _ _

/-- C7 counterexample: two equally-scoring agents listed as ids `[5, 2]`
are returned in that input order by `rank_agents_for_job`, while the
claimed id-ascending tie-break would return `[2, 5]`. -/
theorem rank_tie_counterexample :
    (rank_agents_for_job [agentTie5, agentTie2] jobNoReqs).map (fun x => x.1.id) = [5, 2] ∧
    (rank_agents_for_job_claimed [agentTie5, agentTie2] jobNoReqs).map
      (fun x => x.1.id) = [2, 5] := by
  have e3 : AgentStatus.ONLINE ≠ AgentStatus.OFFLINE := by decide
  constructor
  · simp only [rank_agents_for_job, List.filterMap_cons, List.filterMap_nil]
    norm_num [e3, agentTie5, agentTie2, jobNoReqs, calculate_match_score, soft_breakdown,
      tools_score, context_score, accuracy_score, reputation_score, price_score,
      specialization_score, categoryBaseHours, trustDisqualified, mergeSort_pair, min_def]
  · simp only [rank_agents_for_job_claimed, List.filterMap_cons, List.filterMap_nil]
    norm_num [e3, agentTie5, agentTie2, jobNoReqs, calculate_match_score, soft_breakdown,
      tools_score, context_score, accuracy_score, reputation_score, price_score,
      specialization_score, categoryBaseHours, trustDisqualified, mergeSort_pair, min_def]

/-- C1: with sufficient balance and a positive budget,
`deposit_to_escrow` then `release_to_agent` yields
`balance_before = balance_after + net + fee` and
`pending_payout_after = pending_payout_before + net`, where
`fee = budget * platform_fee_percent/100`, `net = budget - fee` and
`net + fee = gross = budget`. -/
theorem deposit_then_release_spec (pct : ℚ) (job : Job) (company : Company)
    (agent : AgentNode) (hbal : job.budget ≤ company.balance) (hpos : 0 < job.budget) :
    deposit_then_release pct job company agent =
      .ok ({ job with escrow_amount := 0, payment_status := .RELEASED },
           { agent with
               total_earned := agent.total_earned + (job.budget - job.budget * (pct / 100)),
               pending_payout := agent.pending_payout + (job.budget - job.budget * (pct / 100)) },
           some { company with
               balance := company.balance - job.budget,
               total_spent := company.total_spent + job.budget },
           { job_id := job.id, from_company_id := job.company_id, to_agent_id := some agent.id,
             gross_amount := job.budget, platform_fee := job.budget * (pct / 100),
             net_amount := job.budget - job.budget * (pct / 100),
             transaction_type := "release" }) ∧
    company.balance = (company.balance - job.budget) +
      (job.budget - job.budget * (pct / 100)) + job.budget * (pct / 100) ∧
    (job.budget - job.budget * (pct / 100)) + job.budget * (pct / 100) = job.budget := by
  refine ⟨?_, by ring, by ring⟩
  unfold deposit_then_release deposit_to_escrow
  rw [if_neg (not_lt.mpr hbal)]
  dsimp only
  unfold release_to_agent
  rw [if_neg (by simp), if_neg (by simp [not_le]; exact hpos)]
  rfl

/-- The §8 numbers: escrowed budget 100 at fee 10 % releases fee 10,
net 90, and the agent's pending payout rises by exactly 90. -/
theorem deposit_then_release_witness :
    deposit_then_release 10 jobBudget100 companyRich agentNoTools =
      .ok ({ jobBudget100 with escrow_amount := 0, payment_status := .RELEASED },
           { agentNoTools with total_earned := 90, pending_payout := 90 },
           some { companyRich with balance := 0, total_spent := 100 },
           { job_id := 3, from_company_id := 1, to_agent_id := some 2, gross_amount := 100,
             platform_fee := 10, net_amount := 90, transaction_type := "release" }) := by
  have h := (deposit_then_release_spec 10 jobBudget100 companyRich agentNoTools
    (by norm_num [jobBudget100, companyRich]) (by norm_num [jobBudget100])).1
  norm_num [jobBudget100, companyRich, agentNoTools] at h ⊢
  exact h

/-- C8 counterexample: for a support job with budget 150 and hourly rate
10, the scorer's price component is `(1 - 40/150) * 0.15 = 11/100`
(hours 4, unscaled), while the claimed formula with the ×1.5 budget
scaling gives `(1 - 60/150) * 0.15 = 9/100`. -/
theorem price_score_scaling_counterexample :
    (calculate_match_score agentEmailCrm jobSupport150).2.price_score = 11/100 ∧
    price_score_claimed agentEmailCrm jobSupport150 = 9/100 := by
  constructor
  · unfold calculate_match_score
    rw [if_neg (by simp [jobSupport150]), if_neg (by simp [jobSupport150]),
      if_neg (by simp [trustDisqualified, jobSupport150])]
    show price_score agentEmailCrm jobSupport150 = 11/100
    unfold price_score
    rw [if_pos (by norm_num [jobSupport150, agentEmailCrm])]
    norm_num [jobSupport150, agentEmailCrm, categoryBaseHours]
  · unfold price_score_claimed estimate_job_hours
    norm_num [jobSupport150, agentEmailCrm, categoryBaseHours]

/-- C8 (amended): for a non-disqualified agent with positive hourly rate
and a positive-budget job, the scorer's price component uses the
category hours table with NO budget scaling:
`estimated_cost = hourly_rate * hours(category)`, contributing
`(1 - estimated_cost/budget) * 0.15` when affordable, else 0. -/
theorem price_score_spec (agent : AgentNode) (job : Job)
    (hrate : 0 < agent.hourly_rate) (hbud : 0 < job.budget)
    (hnd : ¬ disqualified agent job) :
    (calculate_match_score agent job).2.price_score =
      (if agent.hourly_rate * categoryBaseHours job.category ≤ job.budget
       then (1 - agent.hourly_rate * categoryBaseHours job.category / job.budget) * 0.15
       else 0) := by
  unfold disqualified at hnd
  rw [not_or, not_or] at hnd
  obtain ⟨h1, h2, h3⟩ := hnd
  unfold calculate_match_score
  rw [if_neg h1, if_neg h2, if_neg h3]
  show price_score agent job = _
  unfold price_score
  rw [if_pos ⟨ne_of_gt hbud, ne_of_gt hrate⟩]

/-- The amended price formula instantiated on the budget-150 support
job. -/
theorem price_score_spec_witness :
    (calculate_match_score agentEmailCrm jobSupport150).2.price_score =
      (if agentEmailCrm.hourly_rate * categoryBaseHours jobSupport150.category ≤
          jobSupport150.budget
       then (1 - agentEmailCrm.hourly_rate * categoryBaseHours jobSupport150.category /
          jobSupport150.budget) * 0.15
       else 0) :=
  price_score_spec agentEmailCrm jobSupport150 (by norm_num [agentEmailCrm])
    (by norm_num [jobSupport150]) (by decide)

/-- C10 counterexample: with one prior 4.4 review and a new all-4s
review, the code sets rating 4.4 — the mean over the agent's PRIOR
reviews only (the pending new review is invisible to the rating query
since the session never flushes before it) — not the 4.2 mean over all
reviews that the claim asserts; and the ELITE agent with 60 completed
jobs is then set to TRUSTED, so the operation also lowers
`trust_level`. -/
theorem review_demotes_elite :
    agentElite.trust_level = .ELITE ∧
    ratingAfterReview 10 companyRich jobPendingReview agentElite [reviewPrior]
      reviewApprove4 = some 4.4 ∧
    ((([reviewPrior, mkReview agentElite jobPendingReview reviewApprove4].filter
        (fun r => r.agent_id = agentElite.id)).map (fun r => r.overall_score)).sum /
      (([reviewPrior, mkReview agentElite jobPendingReview reviewApprove4].filter
        (fun r => r.agent_id = agentElite.id)).length : ℚ)) = 4.2 ∧
    trustAfterReview 10 companyRich jobPendingReview agentElite [reviewPrior]
      reviewApprove4 = some .TRUSTED := by
  refine ⟨by decide, ?_, ?_, ?_⟩
  · unfold ratingAfterReview review_deliverable
    rw [if_neg (by simp [jobPendingReview, companyRich]),
        if_neg (by simp [jobPendingReview]),
        if_neg (by simp [jobPendingReview, agentElite]),
        if_pos (by simp [reviewApprove4])]
    unfold release_to_agent
    norm_num [agentElite, reviewPrior, reviewApprove4, jobPendingReview, companyRich]
  · norm_num [mkReview, reviewPrior, reviewApprove4, agentElite, jobPendingReview]
  · unfold trustAfterReview review_deliverable
    rw [if_neg (by simp [jobPendingReview, companyRich]),
        if_neg (by simp [jobPendingReview]),
        if_neg (by simp [jobPendingReview, agentElite]),
        if_pos (by simp [reviewApprove4])]
    unfold release_to_agent
    norm_num [agentElite, reviewPrior, reviewApprove4, jobPendingReview, companyRich]

/-- C10 (amended): a successful approve appends a review whose
`overall_score` is the mean of the three sub-scores, but recomputes the
agent's rating as the arithmetic mean of `overall_score` over the
agent's PRIOR reviews only — the session has `autoflush` disabled, so
the rating query cannot see the just-added review — leaving the rating
unchanged when the agent has no prior reviews; it then sets the trust
level to ELITE when `jobs_completed ≥ 50 ∧ rating ≥ 4.5`, else TRUSTED
when `≥ 20 ∧ ≥ 4.0`, else VERIFIED when `≥ 5 ∧ ≥ 3.5`, else leaves it
unchanged — where `jobs_completed` is the post-increment count.  This
re-evaluation can lower the trust level (see the counterexample). -/
theorem review_approve_spec (pct : ℚ) (company : Company) (job : Job)
    (agent : AgentNode) (reviews : List Review) (d : DeliverableReview)
    (hown : job.company_id = company.id) (hst : job.status = .PENDING_REVIEW)
    (hhired : job.hired_agent_id = some agent.id) (happ : d.approved = true)
    (hesc : job.payment_status = .ESCROWED) (hamt : 0 < job.escrow_amount) :
    ((reviews.filter (fun r => r.agent_id = agent.id)).isEmpty = false →
      ratingAfterReview pct company job agent reviews d =
        some (((reviews.filter (fun r => r.agent_id = agent.id)).map
            (fun r => r.overall_score)).sum /
          ((reviews.filter (fun r => r.agent_id = agent.id)).length : ℚ))) ∧
    ((reviews.filter (fun r => r.agent_id = agent.id)).isEmpty = true →
      ratingAfterReview pct company job agent reviews d = some agent.rating) ∧
    (∀ rating', ratingAfterReview pct company job agent reviews d = some rating' →
      trustAfterReview pct company job agent reviews d =
        some (if agent.jobs_completed + 1 ≥ 50 ∧ rating' ≥ 4.5 then TrustLevel.ELITE
          else if agent.jobs_completed + 1 ≥ 20 ∧ rating' ≥ 4 then .TRUSTED
          else if agent.jobs_completed + 1 ≥ 5 ∧ rating' ≥ 3.5 then .VERIFIED
          else agent.trust_level)) := by
  have ha : (reviews.filter (fun r => r.agent_id = agent.id)).isEmpty = false →
      ratingAfterReview pct company job agent reviews d =
        some (((reviews.filter (fun r => r.agent_id = agent.id)).map
            (fun r => r.overall_score)).sum /
          ((reviews.filter (fun r => r.agent_id = agent.id)).length : ℚ)) := by
    intro hne
    unfold ratingAfterReview review_deliverable
    rw [if_neg (by simp [hown]), if_neg (by simp [hst]), if_neg (by simp [hhired]),
      if_pos happ]
    unfold release_to_agent
    dsimp only
    rw [if_neg (by simp [hesc]), if_neg (by simp [not_le]; exact hamt)]
    dsimp only
    rw [hne, if_neg Bool.false_ne_true]
    dsimp only
    split_ifs <;> rfl
  have hb : (reviews.filter (fun r => r.agent_id = agent.id)).isEmpty = true →
      ratingAfterReview pct company job agent reviews d = some agent.rating := by
    intro hemp
    unfold ratingAfterReview review_deliverable
    rw [if_neg (by simp [hown]), if_neg (by simp [hst]), if_neg (by simp [hhired]),
      if_pos happ]
    unfold release_to_agent
    dsimp only
    rw [if_neg (by simp [hesc]), if_neg (by simp [not_le]; exact hamt)]
    dsimp only
    rw [hemp, if_pos (show true = true from rfl)]
    dsimp only
    split_ifs <;> rfl
  refine ⟨ha, hb, ?_⟩
  intro rating' hr
  by_cases hemp : (reviews.filter (fun r => r.agent_id = agent.id)).isEmpty = true
  · rw [hb hemp] at hr
    injection hr with hr
    subst hr
    unfold trustAfterReview review_deliverable
    rw [if_neg (by simp [hown]), if_neg (by simp [hst]), if_neg (by simp [hhired]),
      if_pos happ]
    unfold release_to_agent
    dsimp only
    rw [if_neg (by simp [hesc]), if_neg (by simp [not_le]; exact hamt)]
    dsimp only
    rw [hemp, if_pos (show true = true from rfl)]
    dsimp only
    split_ifs <;> rfl
  · have hne : (reviews.filter (fun r => r.agent_id = agent.id)).isEmpty = false := by
      revert hemp
      cases (reviews.filter (fun r => r.agent_id = agent.id)).isEmpty <;> simp
    rw [ha hne] at hr
    injection hr with hr
    subst hr
    unfold trustAfterReview review_deliverable
    rw [if_neg (by simp [hown]), if_neg (by simp [hst]), if_neg (by simp [hhired]),
      if_pos happ]
    unfold release_to_agent
    dsimp only
    rw [if_neg (by simp [hesc]), if_neg (by simp [not_le]; exact hamt)]
    dsimp only
    rw [hne, if_neg Bool.false_ne_true]
    dsimp only
    split_ifs <;> rfl

/-- The amended review/rating law instantiated on the concrete ELITE
agent scenario: the recomputed rating is the mean over the single prior
review only. -/
theorem review_approve_spec_witness :
    ([reviewPrior].filter (fun r => r.agent_id = agentElite.id)).isEmpty = false ∧
    ratingAfterReview 10 companyRich jobPendingReview agentElite [reviewPrior]
      reviewApprove4 =
      some ((([reviewPrior].filter (fun r => r.agent_id = agentElite.id)).map
          (fun r => r.overall_score)).sum /
        (([reviewPrior].filter (fun r => r.agent_id = agentElite.id)).length : ℚ)) :=
  ⟨by decide,
   (review_approve_spec 10 companyRich jobPendingReview agentElite [reviewPrior]
      reviewApprove4 (by decide) (by decide) (by decide) (by decide) (by decide)
      (by norm_num [jobPendingReview])).1 (by decide)⟩

end Agentbook
